import Mathlib

/-!
Verification of the favorite-colors MCP server: a shallow embedding of the
color store (internal/storage/colors.go) and of the JSON-RPC dispatcher
(internal/mcp/server.go), with theorems about the store operations and the
dispatcher responses.
-/

set_option linter.unusedVariables false

namespace FavColors

/-! ## Go JSON values

Go decodes JSON into interface\x7b\x7d values: nil, bool, float64, string,
slices and string-keyed maps. A failed type assertion with the two-value
form yields the zero value and ok=false; indexing a nil or missing map key
yields the zero value (nil). We model decoded values by `GoVal`; an absent
field is `GoVal.null`.
-/

inductive GoVal where
  | null : GoVal
  | bool : Bool → GoVal
  | num : Int → GoVal
  | str : String → GoVal
  | arr : List GoVal → GoVal
  | obj : List (String × GoVal) → GoVal

/-- Two-value type assertion to a Go map: `v.(map[string]interface\x7b\x7d)`.
A failed assertion yields the nil map, which behaves as the empty map for
lookups, so we return `[]` for non-objects. -/
def objFields : GoVal → List (String × GoVal)
  | GoVal.obj fs => fs
  | _ => []

/-- Type assertion `v.(map[string]interface\x7b\x7d)` in one-value test form:
`some` of the fields when the value is an object, `none` otherwise. -/
def asObj : GoVal → Option (List (String × GoVal))
  | GoVal.obj fs => some fs
  | _ => none

/-- Type assertion `v.(string)`: `some` when the value is a string. -/
def asString : GoVal → Option String
  | GoVal.str s => some s
  | _ => none

/-- Go map indexing `m[k]`: the stored value, or the zero value (nil) when
the key is absent. -/
def lookupGo (fs : List (String × GoVal)) (k : String) : GoVal :=
  match fs with
  | [] => GoVal.null
  | (k0, v0) :: rest => if k0 = k then v0 else lookupGo rest k

/-! ## Color store (internal/storage/colors.go)

`ColorStorage` holds `colors []string` guarded by an RWMutex; each
operation is executed entirely under the lock, so sequentially each
operation is a pure function from the list to a new list plus its return
values. The mutex itself is not part of the sequential model.
-/

/-- The membership loop of `AddColor`: ranges over the slice comparing with
`==` (exact, case-sensitive string equality). -/
def containsColor : List String → String → Bool
  | [], _ => false
  | c0 :: rest, color => if c0 = color then true else containsColor rest color

/-- `ColorStorage.AddColor`: if the color is already present, return the
already-in-favorites message and false without mutating; otherwise append
the color at the end and return the success message and true.
Result: (new colors, message, added). -/
def AddColor (colors : List String) (color : String) : List String × String × Bool :=
  if containsColor colors color then
    (colors, "Color \x27" ++ color ++ "\x27 is already in your favorites", false)
  else
    (colors ++ [color],
     "Successfully added \x27" ++ color ++ "\x27 to your favorite colors!", true)

/-- One line of the `GetColors` rendering: `fmt.Sprintf("%d. %s\n", i+1, color)`
for the zero-based index `i`. -/
def colorLine (i : Nat) (color : String) : String :=
  toString (i + 1) ++ ". " ++ color ++ "\n"

/-- The `GetColors` loop: `for i, color := range colors \x7b text += ... \x7d`,
carried out with the running index and the accumulated text. -/
def appendLines : List String → Nat → String → String
  | [], _, text => text
  | c :: rest, i, text => appendLines rest (i + 1) (text ++ colorLine i c)

/-- `ColorStorage.GetColors`: returns a copied snapshot of the slice and the
rendered text: a fixed sentence when empty, otherwise a count header
followed by the numbered lines. -/
def GetColors (colors : List String) : List String × String :=
  (colors,
   if colors.length = 0 then
     "You have no favorite colors yet."
   else
     appendLines colors 0
       ("Your favorite colors (" ++ toString colors.length ++ " total):\n"))

/-- `ColorStorage.RemoveColor`: scan for the first entry equal to `color`;
delete it (keeping the rest in order) and return the success message and
true, or return the not-found message and false when no entry matches.
Result: (new colors, message, removed). -/
def RemoveColor : List String → String → List String × String × Bool
  | [], color =>
    ([], "Color \x27" ++ color ++ "\x27 was not found in your favorites", false)
  | c0 :: rest, color =>
    if c0 = color then
      (rest, "Successfully removed \x27" ++ color ++ "\x27 from your favorite colors!",
       true)
    else
      let r := RemoveColor rest color
      (c0 :: r.1, r.2.1, r.2.2)

/-- `ColorStorage.ClearColors`: record the length, replace the slice by the
empty one, and report the cleared count. Result: (new colors, message,
previous count). -/
def ClearColors (colors : List String) : List String × String × Nat :=
  ([], "Successfully cleared " ++ toString colors.length ++ " favorite colors!",
   colors.length)

/-- `ColorStorage.Count`: the current length of the slice. -/
def Count (colors : List String) : Nat := colors.length

/-- A mutating store operation, for stating the reachability invariant. -/
inductive StoreOp where
  | add : String → StoreOp
  | remove : String → StoreOp
  | clear : StoreOp

/-- Apply one mutating operation to the stored list. -/
def applyOp (colors : List String) : StoreOp → List String
  | StoreOp.add c => (AddColor colors c).1
  | StoreOp.remove c => (RemoveColor colors c).1
  | StoreOp.clear => (ClearColors colors).1

/-- Run a sequence of mutating operations from the empty store
(`NewColorStorage` starts with an empty slice). -/
def runOps (ops : List StoreOp) : List String :=
  ops.foldl applyOp []

/-! ## MCP server (internal/mcp/server.go)

`Server` holds the tool registry (a Go map from tool name to `Tool`,
modelled as an association list with upsert registration) and the color
storage. Handlers that mutate the storage return the updated server
alongside the response.
-/

/-- `ToolSchema`: type, properties (a Go map of property name to its
JSON-schema fragment) and the required property names. -/
structure ToolSchema where
  type : String
  properties : List (String × GoVal) := []
  required : List String := []

/-- `Tool`: name, human-readable description and input schema. -/
structure Tool where
  name : String
  description : String
  inputSchema : ToolSchema

/-- `JSONRPCError`: code, message and optional extra data. -/
structure JSONRPCError where
  code : Int
  message : String
  data : Option GoVal := none

/-- `JSONRPCRequest`: the decoded request envelope. `id` and `params` are
interface\x7b\x7d fields; an absent field decodes to nil (`GoVal.null`). -/
structure JSONRPCRequest where
  jsonrpc : String
  id : GoVal := GoVal.null
  method : String
  params : GoVal := GoVal.null

/-- `JSONRPCResponse`: the response envelope. `Result interface\x7b\x7d` and
`Error *JSONRPCError` are nil (`none`) when absent; both carry omitempty,
so `none` is omitted on the wire. -/
structure JSONRPCResponse where
  jsonrpc : String
  id : GoVal := GoVal.null
  result : Option GoVal := none
  error : Option JSONRPCError := none

/-- `Server`: tool registry plus color storage. -/
structure Server where
  tools : List (String × Tool)
  colors : List String

/-- Go map assignment `m[k] = v`: replace the entry for the key when
present, otherwise add it. -/
def upsertTool : List (String × Tool) → String → Tool → List (String × Tool)
  | [], k, v => [(k, v)]
  | (k0, v0) :: rest, k, v =>
    if k0 = k then (k, v) :: rest else (k0, v0) :: upsertTool rest k v

/-- `Server.RegisterTool`: store the tool under its name. -/
def RegisterTool (s : Server) (t : Tool) : Server :=
  { s with tools := upsertTool s.tools t.name t }

/-- The four tools registered by `registerTools`, in registration order. -/
def registerTools (s : Server) : Server :=
  RegisterTool (RegisterTool (RegisterTool (RegisterTool s
    { name := "add_color",
      description := "Add a color to your favorites list",
      inputSchema :=
        { type := "object",
          properties := [("color", GoVal.obj
            [("type", GoVal.str "string"),
             ("description", GoVal.str "The color to add to favorites")])],
          required := ["color"] } })
    { name := "get_colors",
      description := "Get all favorite colors",
      inputSchema := { type := "object" } })
    { name := "remove_color",
      description := "Remove a color from your favorites list",
      inputSchema :=
        { type := "object",
          properties := [("color", GoVal.obj
            [("type", GoVal.str "string"),
             ("description", GoVal.str "The color to remove from favorites")])],
          required := ["color"] } })
    { name := "clear_colors",
      description := "Clear all favorite colors",
      inputSchema := { type := "object" } }

/-- `NewServer`: empty registry and empty storage, then `registerTools`. -/
def NewServer : Server :=
  registerTools { tools := [], colors := [] }

/-- An error response: protocol tag "2.0", the request id echoed, no
result, and the given code and message. -/
def errorResponse (req : JSONRPCRequest) (code : Int) (msg : String) :
    JSONRPCResponse :=
  { jsonrpc := "2.0", id := req.id, result := none,
    error := some { code := code, message := msg } }

/-- The result value wrapping a store message as a single text content
block: \x7b"content": [\x7b"type": "text", "text": msg\x7d]\x7d. -/
def textContent (msg : String) : GoVal :=
  GoVal.obj [("content", GoVal.arr
    [GoVal.obj [("type", GoVal.str "text"), ("text", GoVal.str msg)]])]

/-- A success response carrying a single text content block. -/
def textResponse (req : JSONRPCRequest) (msg : String) : JSONRPCResponse :=
  { jsonrpc := "2.0", id := req.id, result := some (textContent msg),
    error := none }

/-- `handleInitialize` (named `handleInit` here): a fixed descriptor with
the protocol version, server info and capabilities. Request params are
ignored. -/
def handleInit (req : JSONRPCRequest) : JSONRPCResponse :=
  { jsonrpc := "2.0", id := req.id,
    result := some (GoVal.obj
      [("protocolVersion", GoVal.str "2024-11-05"),
       ("serverInfo", GoVal.obj
         [("name", GoVal.str "favorite-colors-mcp"),
          ("version", GoVal.str "1.0.0")]),
       ("capabilities", GoVal.obj [("tools", GoVal.obj [])])]),
    error := none }

/-- Encoding of a `ToolSchema` as a JSON value. -/
def schemaToGo (sch : ToolSchema) : GoVal :=
  GoVal.obj [("type", GoVal.str sch.type),
             ("properties", GoVal.obj sch.properties),
             ("required", GoVal.arr (sch.required.map GoVal.str))]

/-- Encoding of a `Tool` as a JSON value. -/
def toolToGo (t : Tool) : GoVal :=
  GoVal.obj [("name", GoVal.str t.name),
             ("description", GoVal.str t.description),
             ("inputSchema", schemaToGo t.inputSchema)]

/-- `handleToolsList`: result \x7b"tools": all registered tools\x7d. The Go
registry is an unordered map; this model lists them in registry order. -/
def handleToolsList (s : Server) (req : JSONRPCRequest) : JSONRPCResponse :=
  { jsonrpc := "2.0", id := req.id,
    result := some (GoVal.obj
      [("tools", GoVal.arr (s.tools.map (fun p => toolToGo p.2)))]),
    error := none }

/-- `handleAddColor`: `args["color"]` must assert to a non-empty string,
else error -32602 "Color parameter required"; otherwise delegate to
`AddColor` and wrap its message. -/
def handleAddColor (s : Server) (req : JSONRPCRequest)
    (args : List (String × GoVal)) : Server × JSONRPCResponse :=
  match asString (lookupGo args "color") with
  | none => (s, errorResponse req (-32602) "Color parameter required")
  | some color =>
    if color = "" then
      (s, errorResponse req (-32602) "Color parameter required")
    else
      let r := AddColor s.colors color
      ({ s with colors := r.1 }, textResponse req r.2.1)

/-- `handleGetColors`: delegate to `GetColors` (arguments ignored) and wrap
the rendered text. -/
def handleGetColors (s : Server) (req : JSONRPCRequest)
    (args : List (String × GoVal)) : Server × JSONRPCResponse :=
  (s, textResponse req (GetColors s.colors).2)

/-- `handleRemoveColor`: `args["color"]` must assert to a non-empty string,
else error -32602 "Color parameter required"; otherwise delegate to
`RemoveColor` and wrap its message. -/
def handleRemoveColor (s : Server) (req : JSONRPCRequest)
    (args : List (String × GoVal)) : Server × JSONRPCResponse :=
  match asString (lookupGo args "color") with
  | none => (s, errorResponse req (-32602) "Color parameter required")
  | some color =>
    if color = "" then
      (s, errorResponse req (-32602) "Color parameter required")
    else
      let r := RemoveColor s.colors color
      ({ s with colors := r.1 }, textResponse req r.2.1)

/-- `handleClearColors`: delegate to `ClearColors` (arguments ignored) and
wrap its message. -/
def handleClearColors (s : Server) (req : JSONRPCRequest)
    (args : List (String × GoVal)) : Server × JSONRPCResponse :=
  let r := ClearColors s.colors
  ({ s with colors := r.1 }, textResponse req r.2.1)

/-- `handleToolsCall`: params must assert to a map, else -32602 "Invalid
params"; `params["name"]` must assert to a string, else -32602 "Tool name
required"; `params["arguments"]` is asserted to a map with the two-value
form (nil map on failure); then dispatch on the tool name, with -32601
"Tool not found" for any other name. -/
def handleToolsCall (s : Server) (req : JSONRPCRequest) :
    Server × JSONRPCResponse :=
  match asObj req.params with
  | none => (s, errorResponse req (-32602) "Invalid params")
  | some params =>
    match asString (lookupGo params "name") with
    | none => (s, errorResponse req (-32602) "Tool name required")
    | some toolName =>
      let arguments := objFields (lookupGo params "arguments")
      if toolName = "add_color" then handleAddColor s req arguments
      else if toolName = "get_colors" then handleGetColors s req arguments
      else if toolName = "remove_color" then handleRemoveColor s req arguments
      else if toolName = "clear_colors" then handleClearColors s req arguments
      else (s, errorResponse req (-32601) "Tool not found")

/-- `Server.HandleRequest`: dispatch on the method, with -32601 "Method not
found" for any other method. The Go switch on a string is a sequence of
equality tests. -/
def HandleRequest (s : Server) (req : JSONRPCRequest) :
    Server × JSONRPCResponse :=
  if req.method = "initialize" then (s, handleInit req)
  else if req.method = "tools/list" then (s, handleToolsList s req)
  else if req.method = "tools/call" then handleToolsCall s req
  else (s, errorResponse req (-32601) "Method not found")

/-! ## Specification-side definitions used by the theorem statements -/

/-- Concatenation of a list of text lines. -/
def concatLines : List String → String
  | [] => ""
  | l :: rest => l ++ concatLines rest

/-- Specification-side description of the rendered list body: one line per
color, in insertion order; the line for the color at zero-based position i
shows the 1-based index i+1, a dot and a space, the color, and a newline. -/
def enumLines : Nat → List String → List String
  | _, [] => []
  | i, c :: rest => (toString (i + 1) ++ ". " ++ c ++ "\n") :: enumLines (i + 1) rest

/-- A response carries exactly one of a result value or an error object:
never both, never neither. -/
def ExactlyOne (resp : JSONRPCResponse) : Prop :=
  (resp.result ≠ none ∧ resp.error = none) ∨
  (resp.result = none ∧ resp.error ≠ none)

/-- The dispatcher contract on one handler output: the protocol tag is
"2.0", the request id is echoed, exactly one of result and error is
present, and an error response leaves the server unchanged. -/
def HandlerOk (s : Server) (req : JSONRPCRequest)
    (out : Server × JSONRPCResponse) : Prop :=
  out.2.jsonrpc = "2.0" ∧ out.2.id = req.id ∧ ExactlyOne out.2 ∧
    (out.2.error ≠ none → out.1 = s)

/-- A sample server with an empty registry, used to instantiate the
dispatcher theorems on concrete inputs. -/
def emptyServer : Server := { tools := [], colors := [] }

/-- A sample tools/call request with the given params value. -/
def callReq (p : GoVal) : JSONRPCRequest :=
  { jsonrpc := "2.0", id := GoVal.num 1, method := "tools/call", params := p }

/-- A sample request with the given method and no params. -/
def plainReq (m : String) : JSONRPCRequest :=
  { jsonrpc := "2.0", id := GoVal.num 2, method := m, params := GoVal.null }

/-! ## Color store lemmas -/

theorem containsColor_iff (l : List String) (c : String) :
    containsColor l c = true ↔ c ∈ l := by
  induction l with
  | nil => simp [containsColor]
  | cons c0 rest ih =>
    by_cases h : c0 = c
    · simp [containsColor, h]
    · simp only [containsColor, if_neg h, ih, List.mem_cons]
      constructor
      · exact Or.inr
      · rintro (rfl | hmem)
        · exact absurd rfl h
        · exact hmem

theorem addColor_mem (l : List String) (c : String) (h : c ∈ l) :
    (AddColor l c).1 = l ∧ (AddColor l c).2.2 = false := by
  have hc : containsColor l c = true := (containsColor_iff l c).mpr h
  simp [AddColor, hc]

theorem addColor_not_mem (l : List String) (c : String) (h : c ∉ l) :
    (AddColor l c).1 = l ++ [c] ∧ (AddColor l c).2.2 = true := by
  have hc : ¬ containsColor l c = true :=
    fun hh => h ((containsColor_iff l c).mp hh)
  simp [AddColor, if_neg hc]

theorem removeColor_fst (l : List String) (c : String) :
    (RemoveColor l c).1 = l.erase c := by
  induction l with
  | nil => rfl
  | cons c0 rest ih =>
    by_cases h : c0 = c
    · subst h; simp [RemoveColor, List.erase_cons]
    · simp [RemoveColor, h, ih, List.erase_cons, beq_iff_eq]

theorem removeColor_snd_mem (l : List String) (c : String) (h : c ∈ l) :
    (RemoveColor l c).2.2 = true := by
  induction l with
  | nil => cases h
  | cons c0 rest ih =>
    by_cases hh : c0 = c
    · simp [RemoveColor, hh]
    · rcases List.mem_cons.mp h with h1 | h1
      · exact absurd h1.symm hh
      · simp [RemoveColor, hh, ih h1]

theorem removeColor_not_mem (l : List String) (c : String) (h : c ∉ l) :
    (RemoveColor l c).1 = l ∧ (RemoveColor l c).2.2 = false := by
  induction l with
  | nil => exact ⟨rfl, rfl⟩
  | cons c0 rest ih =>
    have h0 : ¬ c0 = c := fun hh => h (hh ▸ List.mem_cons_self c0 rest)
    have h1 : c ∉ rest := fun hh => h (List.mem_cons_of_mem _ hh)
    simp [RemoveColor, h0, (ih h1).1, (ih h1).2]

theorem applyOp_nodup (colors : List String) (op : StoreOp)
    (h : colors.Nodup) : (applyOp colors op).Nodup := by
  cases op with
  | add c =>
    by_cases hm : c ∈ colors
    · simp only [applyOp, (addColor_mem colors c hm).1]; exact h
    · simp only [applyOp, (addColor_not_mem colors c hm).1]
      simp [List.nodup_append, h, hm]
  | remove c =>
    simp only [applyOp, removeColor_fst]; exact h.erase c
  | clear => simp [applyOp, ClearColors]

theorem foldl_applyOp_nodup (ops : List StoreOp) :
    ∀ colors : List String, colors.Nodup → (ops.foldl applyOp colors).Nodup := by
  induction ops with
  | nil => intro colors h; exact h
  | cons op rest ih => intro colors h; exact ih _ (applyOp_nodup colors op h)

theorem runOps_nodup (ops : List StoreOp) : (runOps ops).Nodup :=
  foldl_applyOp_nodup ops [] List.nodup_nil

theorem appendLines_eq (colors : List String) :
    ∀ (i : Nat) (text : String),
      appendLines colors i text = text ++ concatLines (enumLines i colors) := by
  induction colors with
  | nil =>
    intro i text
    simp only [appendLines, enumLines, concatLines, String.append_empty]
  | cons c rest ih =>
    intro i text
    simp only [appendLines, enumLines, concatLines, ih (i + 1)]
    rw [String.append_assoc]
    rfl

/-! ## Claim theorems for the color store -/

/-- C1: the color store never contains two equal entries: every sequence of
operations from the empty store yields a duplicate-free list; adding a
present color returns added=false leaving the store (and its count)
unchanged; adding an absent color appends it at the end and returns
added=true. -/
theorem add_preserves_no_duplicates :
    (∀ ops : List StoreOp, (runOps ops).Nodup) ∧
    (∀ (colors : List String) (c : String), c ∈ colors →
      (AddColor colors c).1 = colors ∧ (AddColor colors c).2.2 = false ∧
      Count (AddColor colors c).1 = Count colors) ∧
    (∀ (colors : List String) (c : String), c ∉ colors →
      (AddColor colors c).1 = colors ++ [c] ∧ (AddColor colors c).2.2 = true) := by
  refine ⟨runOps_nodup, ?_, ?_⟩
  · intro colors c h
    obtain ⟨h1, h2⟩ := addColor_mem colors c h
    exact ⟨h1, h2, by rw [Count, Count, h1]⟩
  · intro colors c h
    exact addColor_not_mem colors c h

/-- Witness for C1: adding "blue" to a store already holding it reports
false and changes nothing; adding "red" appends it and reports true. -/
theorem add_preserves_no_duplicates_witness :
    ((AddColor ["blue"] "blue").1 = ["blue"] ∧
      (AddColor ["blue"] "blue").2.2 = false ∧
      Count (AddColor ["blue"] "blue").1 = Count ["blue"]) ∧
    ((AddColor ["blue"] "red").1 = ["blue"] ++ ["red"] ∧
      (AddColor ["blue"] "red").2.2 = true) :=
  ⟨add_preserves_no_duplicates.2.1 ["blue"] "blue" (by decide),
   add_preserves_no_duplicates.2.2 ["blue"] "red" (by decide)⟩

/-- C6: get returns a snapshot equal to the stored sequence together with
the literal empty-store sentence when empty, and otherwise a count header
followed by the 1-indexed enumerated lines in insertion order. -/
theorem get_snapshot_and_rendering (colors : List String) :
    (GetColors colors).1 = colors ∧
    (colors = [] → (GetColors colors).2 = "You have no favorite colors yet.") ∧
    (colors ≠ [] → (GetColors colors).2 =
      "Your favorite colors (" ++ toString (Count colors) ++ " total):\n" ++
        concatLines (enumLines 0 colors)) := by
  refine ⟨rfl, ?_, ?_⟩
  · intro h; subst h; rfl
  · intro h
    have hl : ¬ colors.length = 0 := fun hh => h (List.length_eq_zero.mp hh)
    simp only [GetColors, if_neg hl]
    exact appendLines_eq colors 0 _

/-- Witness for C6: the empty store renders the literal sentence, and a
two-color store renders the header plus the two numbered lines. -/
theorem get_snapshot_and_rendering_witness :
    (GetColors []).2 = "You have no favorite colors yet." ∧
    (GetColors ["red", "blue"]).2 =
      "Your favorite colors (" ++ toString (Count ["red", "blue"]) ++ " total):\n" ++
        concatLines (enumLines 0 ["red", "blue"]) :=
  ⟨(get_snapshot_and_rendering []).2.1 rfl,
   (get_snapshot_and_rendering ["red", "blue"]).2.2 (by decide)⟩

/-- C7: remove deletes the first matching entry, preserving the order of
the remaining elements, and returns removed=true; removing an absent color
changes nothing and returns removed=false; on a duplicate-free store
containing c, two consecutive removes report true then false and decrease
the count by exactly one in total. -/
theorem remove_deletes_first_match :
    (∀ (colors : List String) (c : String), c ∈ colors →
      (∃ l1 l2, c ∉ l1 ∧ colors = l1 ++ c :: l2 ∧
        (RemoveColor colors c).1 = l1 ++ l2) ∧
      (RemoveColor colors c).2.2 = true) ∧
    (∀ (colors : List String) (c : String), c ∉ colors →
      (RemoveColor colors c).1 = colors ∧ (RemoveColor colors c).2.2 = false) ∧
    (∀ (colors : List String) (c : String), colors.Nodup → c ∈ colors →
      (RemoveColor colors c).2.2 = true ∧
      (RemoveColor (RemoveColor colors c).1 c).2.2 = false ∧
      (RemoveColor (RemoveColor colors c).1 c).1 = (RemoveColor colors c).1 ∧
      Count (RemoveColor colors c).1 + 1 = Count colors) := by
  refine ⟨?_, ?_, ?_⟩
  · intro colors c h
    obtain ⟨l1, l2, hn1, he1, he2⟩ := List.exists_erase_eq h
    exact ⟨⟨l1, l2, hn1, he1, by rw [removeColor_fst]; exact he2⟩,
      removeColor_snd_mem colors c h⟩
  · intro colors c h
    exact removeColor_not_mem colors c h
  · intro colors c hnd h
    have hne : c ∉ (RemoveColor colors c).1 := by
      rw [removeColor_fst]
      intro hc
      exact ((List.Nodup.mem_erase_iff hnd).mp hc).1 rfl
    refine ⟨removeColor_snd_mem colors c h, (removeColor_not_mem _ c hne).2,
      (removeColor_not_mem _ c hne).1, ?_⟩
    rw [Count, Count, removeColor_fst]
    exact List.length_erase_add_one h

/-- Witness for C7: removing "b" from a three-color store deletes exactly
the middle entry; removing it again reports false and the count dropped by
one in total. -/
theorem remove_deletes_first_match_witness :
    ((∃ l1 l2, "b" ∉ l1 ∧ ["a", "b", "c"] = l1 ++ "b" :: l2 ∧
        (RemoveColor ["a", "b", "c"] "b").1 = l1 ++ l2) ∧
      (RemoveColor ["a", "b", "c"] "b").2.2 = true) ∧
    ((RemoveColor ["a", "c"] "b").1 = ["a", "c"] ∧
      (RemoveColor ["a", "c"] "b").2.2 = false) ∧
    ((RemoveColor ["a", "b", "c"] "b").2.2 = true ∧
      (RemoveColor (RemoveColor ["a", "b", "c"] "b").1 "b").2.2 = false ∧
      (RemoveColor (RemoveColor ["a", "b", "c"] "b").1 "b").1 =
        (RemoveColor ["a", "b", "c"] "b").1 ∧
      Count (RemoveColor ["a", "b", "c"] "b").1 + 1 = Count ["a", "b", "c"]) :=
  ⟨remove_deletes_first_match.1 ["a", "b", "c"] "b" (by decide),
   remove_deletes_first_match.2.1 ["a", "c"] "b" (by decide),
   remove_deletes_first_match.2.2 ["a", "b", "c"] "b" (by decide) (by decide)⟩

/-- C8: clear empties the store and reports the previous count, so the
count afterwards is zero; on an empty store the reported count is zero. -/
theorem clear_reports_previous_count (colors : List String) :
    ClearColors colors =
      ([], "Successfully cleared " ++ toString (Count colors) ++
        " favorite colors!", Count colors) ∧
    Count (ClearColors colors).1 = 0 ∧
    ClearColors [] = ([], "Successfully cleared " ++ toString 0 ++
      " favorite colors!", 0) :=
  ⟨rfl, rfl, rfl⟩

/-- Witness for C8: clearing a two-color store reports 2 and empties it. -/
theorem clear_reports_previous_count_witness :
    ClearColors ["a", "b"] =
      ([], "Successfully cleared " ++ toString (Count ["a", "b"]) ++
        " favorite colors!", Count ["a", "b"]) ∧
    Count (ClearColors ["a", "b"]).1 = 0 ∧
    ClearColors [] = ([], "Successfully cleared " ++ toString 0 ++
      " favorite colors!", 0) :=
  clear_reports_previous_count ["a", "b"]

/-! ## Dispatcher lemmas -/

theorem handlerOk_error (s : Server) (req : JSONRPCRequest) (code : Int)
    (msg : String) : HandlerOk s req (s, errorResponse req code msg) :=
  ⟨rfl, rfl, Or.inr ⟨rfl, by simp [errorResponse]⟩, fun _ => rfl⟩

theorem handlerOk_result (s s2 : Server) (req : JSONRPCRequest)
    (resp : JSONRPCResponse) (hj : resp.jsonrpc = "2.0") (hi : resp.id = req.id)
    (hr : resp.result ≠ none) (he : resp.error = none) :
    HandlerOk s req (s2, resp) :=
  ⟨hj, hi, Or.inl ⟨hr, he⟩, fun h => absurd he h⟩

theorem handleAddColor_ok (s : Server) (req : JSONRPCRequest)
    (args : List (String × GoVal)) :
    HandlerOk s req (handleAddColor s req args) := by
  unfold handleAddColor
  cases asString (lookupGo args "color") with
  | none => exact handlerOk_error s req (-32602) "Color parameter required"
  | some color =>
    by_cases hc : color = ""
    · simp only [if_pos hc]
      exact handlerOk_error s req (-32602) "Color parameter required"
    · simp only [if_neg hc]
      exact handlerOk_result s _ req _ rfl rfl (by simp [textResponse]) rfl

theorem handleRemoveColor_ok (s : Server) (req : JSONRPCRequest)
    (args : List (String × GoVal)) :
    HandlerOk s req (handleRemoveColor s req args) := by
  unfold handleRemoveColor
  cases asString (lookupGo args "color") with
  | none => exact handlerOk_error s req (-32602) "Color parameter required"
  | some color =>
    by_cases hc : color = ""
    · simp only [if_pos hc]
      exact handlerOk_error s req (-32602) "Color parameter required"
    · simp only [if_neg hc]
      exact handlerOk_result s _ req _ rfl rfl (by simp [textResponse]) rfl

theorem handleGetColors_ok (s : Server) (req : JSONRPCRequest)
    (args : List (String × GoVal)) :
    HandlerOk s req (handleGetColors s req args) :=
  handlerOk_result s s req _ rfl rfl (by simp [textResponse]) rfl

theorem handleClearColors_ok (s : Server) (req : JSONRPCRequest)
    (args : List (String × GoVal)) :
    HandlerOk s req (handleClearColors s req args) :=
  handlerOk_result s _ req _ rfl rfl (by simp [textResponse]) rfl

theorem handleToolsCall_ok (s : Server) (req : JSONRPCRequest) :
    HandlerOk s req (handleToolsCall s req) := by
  unfold handleToolsCall
  cases asObj req.params with
  | none => exact handlerOk_error s req (-32602) "Invalid params"
  | some params =>
    dsimp only
    cases asString (lookupGo params "name") with
    | none => exact handlerOk_error s req (-32602) "Tool name required"
    | some toolName =>
      dsimp only
      by_cases h1 : toolName = "add_color"
      · simp only [if_pos h1]; exact handleAddColor_ok s req _
      simp only [if_neg h1]
      by_cases h2 : toolName = "get_colors"
      · simp only [if_pos h2]; exact handleGetColors_ok s req _
      simp only [if_neg h2]
      by_cases h3 : toolName = "remove_color"
      · simp only [if_pos h3]; exact handleRemoveColor_ok s req _
      simp only [if_neg h3]
      by_cases h4 : toolName = "clear_colors"
      · simp only [if_pos h4]; exact handleClearColors_ok s req _
      simp only [if_neg h4]
      exact handlerOk_error s req (-32601) "Tool not found"

theorem handleRequest_ok (s : Server) (req : JSONRPCRequest) :
    HandlerOk s req (HandleRequest s req) := by
  unfold HandleRequest
  by_cases h1 : req.method = "initialize"
  · simp only [if_pos h1]
    exact handlerOk_result s s req _ rfl rfl (by simp [handleInit]) rfl
  simp only [if_neg h1]
  by_cases h2 : req.method = "tools/list"
  · simp only [if_pos h2]
    exact handlerOk_result s s req _ rfl rfl (by simp [handleToolsList]) rfl
  simp only [if_neg h2]
  by_cases h3 : req.method = "tools/call"
  · simp only [if_pos h3]; exact handleToolsCall_ok s req
  simp only [if_neg h3]
  exact handlerOk_error s req (-32601) "Method not found"

theorem handleRequest_eq_toolsCall (s : Server) (req : JSONRPCRequest)
    (hm : req.method = "tools/call") :
    HandleRequest s req = handleToolsCall s req := by
  unfold HandleRequest
  rw [hm, if_neg (by decide), if_neg (by decide), if_pos rfl]

theorem toolsCall_reduces (s : Server) (req : JSONRPCRequest)
    (ps : List (String × GoVal)) (tn : String)
    (hp : req.params = GoVal.obj ps)
    (hn : lookupGo ps "name" = GoVal.str tn) :
    handleToolsCall s req =
      (if tn = "add_color" then
        handleAddColor s req (objFields (lookupGo ps "arguments"))
      else if tn = "get_colors" then
        handleGetColors s req (objFields (lookupGo ps "arguments"))
      else if tn = "remove_color" then
        handleRemoveColor s req (objFields (lookupGo ps "arguments"))
      else if tn = "clear_colors" then
        handleClearColors s req (objFields (lookupGo ps "arguments"))
      else (s, errorResponse req (-32601) "Tool not found")) := by
  unfold handleToolsCall
  rw [hp]
  dsimp only [asObj]
  rw [hn]
  dsimp only [asString]

/-! ## Claim theorems for the dispatcher -/

/-- C2: every response produced by the dispatcher carries the protocol tag
"2.0", echoes the request identifier unchanged (null when the request had
none), and contains exactly one of a result value or an error object. -/
theorem response_envelope_wellformed (s : Server) (req : JSONRPCRequest) :
    (HandleRequest s req).2.jsonrpc = "2.0" ∧
    (HandleRequest s req).2.id = req.id ∧
    ExactlyOne (HandleRequest s req).2 :=
  ⟨(handleRequest_ok s req).1, (handleRequest_ok s req).2.1,
   (handleRequest_ok s req).2.2.1⟩

/-- Witness for C2: a concrete initialize request receives a well-formed
envelope. -/
theorem response_envelope_wellformed_witness :
    (HandleRequest emptyServer (plainReq "initialize")).2.jsonrpc = "2.0" ∧
    (HandleRequest emptyServer (plainReq "initialize")).2.id =
      (plainReq "initialize").id ∧
    ExactlyOne (HandleRequest emptyServer (plainReq "initialize")).2 :=
  response_envelope_wellformed emptyServer (plainReq "initialize")

/-- C3: a tools/call request whose params is not an object, or whose params
object lacks a string entry under "name", is answered with error -32602,
with no result, and the server (hence the color store) is untouched. -/
theorem toolsCall_invalid_params_rejected (s : Server) (req : JSONRPCRequest)
    (hm : req.method = "tools/call")
    (h : match asObj req.params with
         | none => True
         | some ps => asString (lookupGo ps "name") = none) :
    (HandleRequest s req).1 = s ∧
    (HandleRequest s req).2.error.map (fun e => e.code) = some (-32602) ∧
    (HandleRequest s req).2.result = none := by
  rw [handleRequest_eq_toolsCall s req hm]
  unfold handleToolsCall
  cases hobj : asObj req.params with
  | none =>
    dsimp only
    simp [errorResponse]
  | some ps =>
    rw [hobj] at h
    dsimp only at h
    dsimp only
    rw [h]
    dsimp only
    simp [errorResponse]

/-- Witness for C3: a tools/call request whose params is a bare string is
rejected with code -32602, no result, and an unchanged server. -/
theorem toolsCall_invalid_params_rejected_witness :
    (HandleRequest emptyServer (callReq (GoVal.str "zzz"))).1 = emptyServer ∧
    (HandleRequest emptyServer (callReq (GoVal.str "zzz"))).2.error.map
      (fun e => e.code) = some (-32602) ∧
    (HandleRequest emptyServer (callReq (GoVal.str "zzz"))).2.result = none :=
  toolsCall_invalid_params_rejected emptyServer (callReq (GoVal.str "zzz"))
    rfl True.intro

/-- C4: for add_color and remove_color, a missing or non-string color
argument, or the empty string, is answered with error -32602 and the
server untouched; otherwise the dispatcher delegates to the store
operation and returns the new store plus a success result wrapping the
returned message as a single text content block. -/
theorem color_argument_validated_then_delegated (s : Server)
    (req : JSONRPCRequest) (ps : List (String × GoVal)) (tn : String)
    (op : List String → String → List String × String × Bool)
    (hm : req.method = "tools/call") (hp : req.params = GoVal.obj ps)
    (hn : lookupGo ps "name" = GoVal.str tn)
    (htn : (tn = "add_color" ∧ op = AddColor) ∨
           (tn = "remove_color" ∧ op = RemoveColor)) :
    (asString (lookupGo (objFields (lookupGo ps "arguments")) "color") = none →
      (HandleRequest s req).1 = s ∧
      (HandleRequest s req).2.error.map (fun e => e.code) = some (-32602)) ∧
    (asString (lookupGo (objFields (lookupGo ps "arguments")) "color") =
        some "" →
      (HandleRequest s req).1 = s ∧
      (HandleRequest s req).2.error.map (fun e => e.code) = some (-32602)) ∧
    (∀ color : String, color ≠ "" →
      asString (lookupGo (objFields (lookupGo ps "arguments")) "color") =
        some color →
      (HandleRequest s req).1 = { s with colors := (op s.colors color).1 } ∧
      (HandleRequest s req).2 = textResponse req (op s.colors color).2.1) := by
  rw [handleRequest_eq_toolsCall s req hm, toolsCall_reduces s req ps tn hp hn]
  rcases htn with ⟨rfl, rfl⟩ | ⟨rfl, rfl⟩
  · rw [if_pos rfl]
    unfold handleAddColor
    refine ⟨?_, ?_, ?_⟩
    · intro hcol
      rw [hcol]
      dsimp only
      simp [errorResponse]
    · intro hcol
      rw [hcol]
      dsimp only
      simp [errorResponse]
    · intro color hne hcol
      rw [hcol]
      dsimp only
      rw [if_neg hne]
      exact ⟨rfl, rfl⟩
  · rw [if_neg (by decide), if_neg (by decide), if_pos rfl]
    unfold handleRemoveColor
    refine ⟨?_, ?_, ?_⟩
    · intro hcol
      rw [hcol]
      dsimp only
      simp [errorResponse]
    · intro hcol
      rw [hcol]
      dsimp only
      simp [errorResponse]
    · intro color hne hcol
      rw [hcol]
      dsimp only
      rw [if_neg hne]
      exact ⟨rfl, rfl⟩

/-- Witness for C4: calling add_color with color "blue" on an empty server
stores "blue" and returns the success text block; calling remove_color
with no arguments yields error -32602 and an unchanged server. -/
theorem color_argument_validated_then_delegated_witness :
    ((HandleRequest emptyServer (callReq (GoVal.obj [("name", GoVal.str "add_color"), ("arguments", GoVal.obj [("color", GoVal.str "blue")])]))).1 = { emptyServer with colors := (AddColor emptyServer.colors "blue").1 } ∧
     (HandleRequest emptyServer (callReq (GoVal.obj [("name", GoVal.str "add_color"), ("arguments", GoVal.obj [("color", GoVal.str "blue")])]))).2 = textResponse (callReq (GoVal.obj [("name", GoVal.str "add_color"), ("arguments", GoVal.obj [("color", GoVal.str "blue")])])) (AddColor emptyServer.colors "blue").2.1) ∧
    ((HandleRequest emptyServer (callReq (GoVal.obj [("name", GoVal.str "remove_color")]))).1 = emptyServer ∧
     (HandleRequest emptyServer (callReq (GoVal.obj [("name", GoVal.str "remove_color")]))).2.error.map (fun e => e.code) = some (-32602)) :=
  ⟨(color_argument_validated_then_delegated emptyServer
      (callReq (GoVal.obj [("name", GoVal.str "add_color"), ("arguments", GoVal.obj [("color", GoVal.str "blue")])]))
      [("name", GoVal.str "add_color"), ("arguments", GoVal.obj [("color", GoVal.str "blue")])]
      "add_color" AddColor rfl rfl rfl
      (Or.inl ⟨rfl, rfl⟩)).2.2 "blue" (by decide) rfl,
   (color_argument_validated_then_delegated emptyServer
      (callReq (GoVal.obj [("name", GoVal.str "remove_color")]))
      [("name", GoVal.str "remove_color")]
      "remove_color" RemoveColor rfl rfl rfl
      (Or.inr ⟨rfl, rfl⟩)).1 rfl⟩

/-- C5: a tools/call naming an unknown tool is answered with error -32601,
and a request with an unknown top-level method is answered with error
-32601. -/
theorem unknown_tool_and_method_rejected :
    (∀ (s : Server) (req : JSONRPCRequest) (ps : List (String × GoVal))
        (tn : String),
      req.method = "tools/call" → req.params = GoVal.obj ps →
      lookupGo ps "name" = GoVal.str tn →
      tn ≠ "add_color" → tn ≠ "get_colors" → tn ≠ "remove_color" →
      tn ≠ "clear_colors" →
      (HandleRequest s req).2.error.map (fun e => e.code) = some (-32601)) ∧
    (∀ (s : Server) (req : JSONRPCRequest),
      req.method ≠ "initialize" → req.method ≠ "tools/list" →
      req.method ≠ "tools/call" →
      (HandleRequest s req).2.error.map (fun e => e.code) = some (-32601)) := by
  constructor
  · intro s req ps tn hm hp hn h1 h2 h3 h4
    rw [handleRequest_eq_toolsCall s req hm, toolsCall_reduces s req ps tn hp hn,
      if_neg h1, if_neg h2, if_neg h3, if_neg h4]
    simp [errorResponse]
  · intro s req h1 h2 h3
    unfold HandleRequest
    rw [if_neg h1, if_neg h2, if_neg h3]
    simp [errorResponse]

/-- Witness for C5: the unknown tool "paint" and the unknown method
"not/a/method" are both answered with code -32601. -/
theorem unknown_tool_and_method_rejected_witness :
    (HandleRequest emptyServer (callReq (GoVal.obj
        [("name", GoVal.str "paint")]))).2.error.map
      (fun e => e.code) = some (-32601) ∧
    (HandleRequest emptyServer (plainReq "not/a/method")).2.error.map
      (fun e => e.code) = some (-32601) :=
  ⟨unknown_tool_and_method_rejected.1 emptyServer
      (callReq (GoVal.obj [("name", GoVal.str "paint")]))
      [("name", GoVal.str "paint")] "paint" rfl rfl rfl (by decide) (by decide)
      (by decide) (by decide),
   unknown_tool_and_method_rejected.2 emptyServer (plainReq "not/a/method")
      (by decide) (by decide) (by decide)⟩

/-- C9: whenever the dispatcher returns an error response, the server, and
in particular the color store, is exactly as before the request: every
error path returns before any store operation is invoked. -/
theorem error_responses_leave_store_unchanged (s : Server)
    (req : JSONRPCRequest)
    (h : (HandleRequest s req).2.error.isSome = true) :
    (HandleRequest s req).1 = s :=
  (handleRequest_ok s req).2.2.2 (Option.isSome_iff_ne_none.mp h)

/-- Witness for C9: an unknown method produces an error response and
leaves the server unchanged. -/
theorem error_responses_leave_store_unchanged_witness :
    (HandleRequest emptyServer (plainReq "bogus/method")).2.error.isSome =
      true ∧
    (HandleRequest emptyServer (plainReq "bogus/method")).1 = emptyServer :=
  ⟨rfl, error_responses_leave_store_unchanged emptyServer
    (plainReq "bogus/method") rfl⟩

end FavColors
